import Mathlib

/-!
Verification of the cart/checkout core of the Learn-Django-DRF store app.

The Django models (`src/store/models.py`) are embedded as record types over a
relational state `DB`; the serializer/view operations (`src/store/serializers.py`,
`src/store/views.py`) become explicit state-passing functions on `DB`.  Django
`DecimalField(max_digits=6, decimal_places=2)` money amounts are embedded as an
integer number of cents (`Int`); `UUIDField` cart keys and model primary keys are
embedded as `Nat` identifiers.  Columns that no modelled operation ever reads
(e.g. `Product.slug`, `Customer.phone`, `Cart.created_at` is kept, `Review`,
`Tag`) are omitted or inert.
-/

deriving instance DecidableEq for Except

namespace StoreApp

/-- Payment status enum of `store.models.Order` (`PAYMENT_STATUS_CHOICES`:
`'P'` pending, `'C'` complete, `'F'` failed; the model default is pending). -/
inductive PaymentStatus where
  | pending
  | complete
  | failed
deriving DecidableEq, Repr

/-- Row of `store.models.Product`: `id`, `title`, `unit_price`
(`DecimalField(6,2)`, embedded as cents), `inventory`, `collection` FK.
`slug`, `description`, `last_update` and `promotions` are never read by the
modelled operations and are omitted. -/
structure Product where
  id : Nat
  title : String
  unit_price : Int
  inventory : Nat
  collection_id : Nat
deriving DecidableEq, Repr

/-- Row of `store.models.Customer`.  Modelled from the spec: the spec states
"Customer: one-to-one with an authenticated account", and the serializers
(`CustomerSerializer.user_id`, `CreateOrderSerializer.save`'s
`Customer.objects.get(user_id=...)`) read a `user_id` column, but the `user`
one-to-one field itself is absent from `src/store/models.py`; the `user_id`
field below is that spec-described link.  Name/email/phone/birth_date/membership
columns are never read by the modelled operations and are omitted. -/
structure Customer where
  id : Nat
  user_id : Nat
deriving DecidableEq, Repr

/-- Row of `store.models.Order`: `placed_at` (`auto_now_add`, embedded as the
`DB.now` clock value at insertion), `payment_status` (defaults to pending) and
the `customer` FK. -/
structure Order where
  id : Nat
  customer_id : Nat
  payment_status : PaymentStatus
  placed_at : Nat
deriving DecidableEq, Repr

/-- Row of `store.models.OrderItem`: `order` FK, `product` FK, `quantity`
(`PositiveSmallIntegerField`), `unit_price` (`DecimalField(6,2)`, an own column
copied at creation, not a reference into the catalog).  The row's own primary
key is never read by the modelled operations and is omitted. -/
structure OrderItem where
  order_id : Nat
  product_id : Nat
  quantity : Nat
  unit_price : Int
deriving DecidableEq, Repr

/-- Row of `store.models.Cart`: `uuid` primary key (`UUIDField`, embedded as an
opaque `Nat` token) and `created_at`. -/
structure Cart where
  uuid : Nat
  created_at : Nat
deriving DecidableEq, Repr

/-- Row of `store.models.CartItem`: own primary key `id`, `cart` FK (to
`Cart.uuid`, `on_delete=CASCADE`), `product` FK (`on_delete=CASCADE`),
`quantity` (`PositiveSmallIntegerField`).  `Meta.unique_together`
`[['cart', 'product']]` is a database constraint, stated here as the
`CartItemsUnique` invariant. -/
structure CartItem where
  id : Nat
  cart_id : Nat
  product_id : Nat
  quantity : Nat
deriving DecidableEq, Repr

/-- The relational state: one list of rows per table, the auto-increment
counters for the two tables whose fresh primary keys matter, and `now`, the
clock value Django's `auto_now_add` would store on an insert performed now. -/
structure DB where
  products : List Product
  customers : List Customer
  orders : List Order
  orderItems : List OrderItem
  carts : List Cart
  cartItems : List CartItem
  nextOrderId : Nat
  nextCartItemId : Nat
  now : Nat
deriving DecidableEq, Repr

/-- `Cart.objects.filter(pk=cart_id).exists()`. -/
def cartExists (db : DB) (cart_id : Nat) : Bool :=
  db.carts.any (fun c => c.uuid == cart_id)

/-- `Product.objects.filter(pk=value).exists()` (the check in
`AddCartItemSerializer.validate_product_id`). -/
def productExists (db : DB) (product_id : Nat) : Bool :=
  db.products.any (fun p => p.id == product_id)

/-- Primary-key lookup of a product (`Product` FK dereference). -/
def productLookup (db : DB) (product_id : Nat) : Option Product :=
  db.products.find? (fun p => p.id == product_id)

/-- `CartItem.objects.filter(cart_id=cart_id)`: the rows of one cart. -/
def cartItemsOf (db : DB) (cart_id : Nat) : List CartItem :=
  db.cartItems.filter (fun it => it.cart_id == cart_id)

/-- `CartItem.objects.select_related('product').filter(cart_id=cart_id)`:
each cart row joined (inner join along the FK) with its product. -/
def cartItemsWithProduct (db : DB) (cart_id : Nat) : List (CartItem × Product) :=
  (cartItemsOf db cart_id).filterMap
    (fun it => (productLookup db it.product_id).map (fun p => (it, p)))

/-- The error outcomes of the modelled endpoints.  `validationError` is DRF's
`serializers.ValidationError`; `notFound` is DRF `NotFound` / Django `Http404`;
`methodNotAllowed` is a handcrafted 405 response; `doesNotExist` is a Django
ORM `Model.DoesNotExist` escaping unhandled. -/
inductive ApiError where
  | validationError (msg : String)
  | notFound (msg : String)
  | methodNotAllowed (msg : String)
  | doesNotExist (model : String)
deriving DecidableEq, Repr

/-- HTTP status each error surfaces as.  DRF's default exception handler maps
`ValidationError` to 400, `Http404`/`NotFound` to 404 and `APIException`
subclasses to their own code (405 here); any other exception — in particular an
ORM `DoesNotExist` that no caller catches — propagates and is answered with a
500 server error. -/
def ApiError.statusCode : ApiError → Nat
  | .validationError _ => 400
  | .notFound _ => 404
  | .methodNotAllowed _ => 405
  | .doesNotExist _ => 500

/-- HTTP status of a whole state-passing call result (201 for a successful
create, the error's code otherwise). -/
def resultStatus (r : DB × Except ApiError Nat) : Nat :=
  match r.2 with
  | .ok _ => 201
  | .error e => e.statusCode

/-- Upper bound of the database column behind Django's
`PositiveSmallIntegerField` (a 16-bit integer on the common backends).  The
upsert below never compares against it: nothing in
`AddCartItemSerializer.save` caps the incremented quantity. -/
def positiveSmallIntegerFieldMax : Nat := 32767

/-- `AddCartItemSerializer` run against `(cart_id, product_id, quantity)`:
`validate_product_id` rejects an unknown product, then `save` does the upsert
of `src/store/serializers.py:154-169` — `CartItem.objects.get(cart_id=...,
product_id=...)` then `quantity += quantity; save()` (an UPDATE of that row by
primary key), or on `DoesNotExist` a `CartItem.objects.create(...)` (an INSERT
with the fresh primary key).  Returns the touched row's primary key.  The
serializer itself declares no bound on `quantity` (backend-derived DRF input
bounds live outside `src/` and are not modelled); in particular the increment
branch writes the exact sum with no upper-bound or saturation check. -/
def addCartItem (db : DB) (cart_id product_id quantity : Nat) :
    DB × Except ApiError Nat :=
  if productExists db product_id then
    match db.cartItems.find?
        (fun it => it.cart_id == cart_id && it.product_id == product_id) with
    | some item =>
      ({ db with
          cartItems := db.cartItems.map
            (fun it =>
              if it.id == item.id then { it with quantity := it.quantity + quantity }
              else it) },
        .ok item.id)
    | none =>
      ({ db with
          cartItems :=
            db.cartItems ++ [⟨db.nextCartItemId, cart_id, product_id, quantity⟩],
          nextCartItemId := db.nextCartItemId + 1 },
        .ok db.nextCartItemId)
  else
    (db, .error (.validationError "No product with the given id was found."))

/-- `CreateOrderSerializer` run against `cart_id` with the authenticated user's
id in the context: `validate_cart_id` (cart must exist and be non-empty, else
`ValidationError`), then `save` (`src/store/serializers.py:224-243`): resolve
the customer with `Customer.objects.get(user_id=...)` — when no row matches,
the ORM raises `Customer.DoesNotExist`, which nothing catches — then create the
`Order` (payment status defaulting to pending, `placed_at` stamped now), build
one `OrderItem` per joined cart row copying `item.product.unit_price`,
bulk-insert them, and delete the cart (the `CASCADE` on `CartItem.cart` also
deletes the cart's rows).  All error branches occur before any write, so they
return the state unchanged.  Returns the new order's primary key. -/
def createOrder (db : DB) (user_id cart_id : Nat) : DB × Except ApiError Nat :=
  if cartExists db cart_id then
    if (cartItemsOf db cart_id).length == 0 then
      (db, .error (.validationError "The cart is empty."))
    else
      match db.customers.find? (fun c => c.user_id == user_id) with
      | none => (db, .error (.doesNotExist "Customer"))
      | some customer =>
        let oid := db.nextOrderId
        let order : Order := ⟨oid, customer.id, .pending, db.now⟩
        let newItems :=
          (cartItemsWithProduct db cart_id).map
            (fun x => OrderItem.mk oid x.2.id x.1.quantity x.2.unit_price)
        ({ db with
            orders := db.orders ++ [order],
            orderItems := db.orderItems ++ newItems,
            carts := db.carts.filter (fun c => !(c.uuid == cart_id)),
            cartItems := db.cartItems.filter (fun it => !(it.cart_id == cart_id)),
            nextOrderId := oid + 1 },
          .ok oid)
  else
    (db, .error (.validationError "No cart with the given id was found."))

/-- Committed state when `CreateOrderSerializer.save` fails part-way, under the
transaction semantics the source actually has.  The
`with transaction.atomic():` of `src/store/serializers.py:213` sits in the
*class body*, so it runs exactly once, at class-definition (import) time, and
is already exited long before any request; it does not wrap `save`.  With
Django's default autocommit (no `ATOMIC_REQUESTS`), each ORM write inside
`save` therefore commits as its own statement, and an exception at a later
statement rolls nothing back.  `k` is the number of write statements that
completed before the failure: the writes are `1` = `Order.objects.create`,
`2` = `OrderItem.objects.bulk_create` (itself a single statement), `3` =
`Cart.objects.filter(pk=cart_id).delete()`; `k = 0` fails before any write and
`k ≥ 3` is the fully successful run.  Validation and the customer lookup happen
before every write, so a state is only produced when they pass. -/
def createOrderAfterWrites (db : DB) (user_id cart_id k : Nat) : DB :=
  if cartExists db cart_id then
    if (cartItemsOf db cart_id).length == 0 then db
    else
      match db.customers.find? (fun c => c.user_id == user_id) with
      | none => db
      | some customer =>
        if k == 0 then db
        else
          let oid := db.nextOrderId
          let order : Order := ⟨oid, customer.id, .pending, db.now⟩
          let db1 := { db with orders := db.orders ++ [order], nextOrderId := oid + 1 }
          if k == 1 then db1
          else
            let newItems :=
              (cartItemsWithProduct db cart_id).map
                (fun x => OrderItem.mk oid x.2.id x.1.quantity x.2.unit_price)
            let db2 := { db1 with orderItems := db1.orderItems ++ newItems }
            if k == 2 then db2
            else
              { db2 with
                  carts := db2.carts.filter (fun c => !(c.uuid == cart_id)),
                  cartItems := db2.cartItems.filter (fun it => !(it.cart_id == cart_id)) }
  else db

/-- `CartItemSerializer.get_total_price` (`src/store/serializers.py:122-123`):
`cart_item.quantity * cart_item.product.unit_price`.  The FK dereference
`cart_item.product` is a primary-key lookup; `none` models the `DoesNotExist`
crash a dangling reference would cause (impossible while the FK constraint
holds). -/
def cartItemTotalPrice (db : DB) (it : CartItem) : Option Int :=
  (productLookup db it.product_id).map (fun p => (it.quantity : Int) * p.unit_price)

/-- Sum of a list of line totals, propagating a crashed line (`none`). -/
def optionSum : List (Option Int) → Option Int
  | [] => some 0
  | o :: rest => o.bind (fun v => (optionSum rest).map (fun s => v + s))

/-- `CartSerializer.get_total_price` (`src/store/serializers.py:135-136`):
`sum([item.quantity * item.product.unit_price for item in cart.items.all()])`
— the sum, over the reverse FK relation from the cart to its `CartItem` rows,
of each line's quantity times its product's current catalog `unit_price`.
Note the model names that reverse accessor `ietems`
(`src/store/models.py:112`, whose own comment intends `items`), so the Python
attribute `cart.items` does not actually exist; what is embedded here is the
relation itself — the cart's `CartItem` rows — which the comprehension is
written to iterate. -/
def cartTotalPrice (db : DB) (cart_id : Nat) : Option Int :=
  optionSum ((cartItemsOf db cart_id).map (fun it => cartItemTotalPrice db it))

/-- The `GET /carts/{id}` read as a state-passing call: serializing a cart only
runs SELECTs, so it returns the state unchanged next to the computed total. -/
def cartTotalRead (db : DB) (cart_id : Nat) : DB × Option Int :=
  (db, cartTotalPrice db cart_id)

/-- `ProductViewSet.destroy` (`src/store/views.py:393-401`): if
`OrderItem.objects.filter(product_id=pk).count() > 0`, answer 405 with the
descriptive error and touch nothing; otherwise fall through to the generic
destroy, which 404s when the product does not exist and otherwise deletes the
row (the `CASCADE` FKs delete the product's `CartItem` rows with it; `PROTECT`
from `OrderItem` is unreachable here because the guard already ruled those
out).  `.ok 0` stands for the 204 No Content response. -/
def productDestroy (db : DB) (pk : Nat) : DB × Except ApiError Nat :=
  if 0 < (db.orderItems.filter (fun oi => oi.product_id == pk)).length then
    (db, .error (.methodNotAllowed
      "Product cannot be deleted because it is associated with order items."))
  else if productExists db pk then
    ({ db with
        products := db.products.filter (fun p => !(p.id == pk)),
        cartItems := db.cartItems.filter (fun it => !(it.product_id == pk)) },
      .ok 0)
  else
    (db, .error (.notFound "No Product matches the given query."))

/-- The body a `PATCH /orders/{id}` client may send: it can mention any of the
order's columns.  DRF's `run_validation` keeps only keys among the serializer's
declared fields, and `UpdateOrderSerializer.Meta.fields` is
`['payment_status']` alone, so the other two never reach `validated_data`. -/
structure OrderPatch where
  payment_status : Option PaymentStatus
  customer : Option Nat
  placed_at : Option Nat
deriving DecidableEq, Repr

/-- `UpdateOrderSerializer` applied to the order with primary key `oid`
(`src/store/serializers.py:206-209`): `ModelSerializer.update` sets exactly the
attributes in `validated_data` — here at most `payment_status` — and saves the
row; every other column and every other row is left as it was. -/
def updateOrder (db : DB) (oid : Nat) (patch : OrderPatch) : DB :=
  { db with
      orders := db.orders.map
        (fun o =>
          if o.id == oid then
            match patch.payment_status with
            | some s => { o with payment_status := s }
            | none => o
          else o) }

/-- Catalog price change (`PUT/PATCH /products/{id}` through
`ProductSerializer`, whose writable `unit_price` field updates the product row
in place). -/
def updateProductPrice (db : DB) (pk : Nat) (newPrice : Int) : DB :=
  { db with
      products := db.products.map
        (fun p => if p.id == pk then { p with unit_price := newPrice } else p) }

/-- The `unique_together = [['cart', 'product']]` database constraint of
`CartItem`: no two rows share a (cart, product) pair. -/
def CartItemsUnique (db : DB) : Prop :=
  (db.cartItems.map (fun it => (it.cart_id, it.product_id))).Nodup

/-- Auto-increment soundness for the `CartItem` table: every stored primary key
is below the next key the database will hand out. -/
abbrev CartItemIdsFresh (db : DB) : Prop :=
  ∀ it ∈ db.cartItems, it.id < db.nextCartItemId

/-- The `CartItem` rows of one (cart, product) pair. -/
def cartItemRowsFor (db : DB) (cart_id product_id : Nat) : List CartItem :=
  db.cartItems.filter (fun it => it.cart_id == cart_id && it.product_id == product_id)

/-- Concrete store state mirroring the spec's worked example: two catalog
products (10.00 and 5.00, i.e. 1000 and 500 cents), one customer (id 1) for
the authenticated user 7, one cart (token 1) holding (product 1, qty 2) and
(product 2, qty 1), and no orders yet. -/
def sampleDB : DB :=
  { products := [⟨1, "P1", 1000, 5, 1⟩, ⟨2, "P2", 500, 3, 1⟩],
    customers := [⟨1, 7⟩],
    orders := [],
    orderItems := [],
    carts := [⟨1, 0⟩],
    cartItems := [⟨10, 1, 1, 2⟩, ⟨11, 1, 2, 1⟩],
    nextOrderId := 1,
    nextCartItemId := 12,
    now := 99 }

/-- `sampleDB` with no `Customer` row at all: user 7 is authenticated but has
no associated customer record. -/
def noCustomerDB : DB :=
  { sampleDB with customers := [] }

/-- The state after user 7 successfully checks out cart 1 of `sampleDB`. -/
def checkedOutDB : DB :=
  (createOrder sampleDB 7 1).1

/-- `sampleDB` with a single cart row already holding the largest quantity the
backing 16-bit column can represent. -/
def maxQtyDB : DB :=
  { sampleDB with cartItems := [⟨10, 1, 1, 32767⟩] }

/-! Helper lemmas shared by the claim theorems. -/

lemma find?_eq_none_of_filter_eq_nil {α : Type} (p : α → Bool) (l : List α)
    (h : l.filter p = []) : l.find? p = none := by
  rw [List.find?_eq_none]
  exact fun x hx => List.filter_eq_nil_iff.mp h x hx

lemma any_filter_ne {α : Type} (q : α → Bool) (l : List α) :
    (l.filter (fun a => !(q a))).any q = false := by
  rw [Bool.eq_false_iff]
  intro h
  obtain ⟨a, ha, hqa⟩ := List.any_eq_true.mp h
  obtain ⟨-, hna⟩ := List.mem_filter.mp ha
  simp [hqa] at hna

/-! ### C1 -/

/-- C1: refuted (code bug).  The spec requires checkout's six steps to run in
one transaction with rollback on failure, and the source's own comment at
`serializers.py:213` claims the same — but the `with transaction.atomic():`
sits in the *class body*, runs once at import, and wraps nothing at request
time.  Concretely: on `sampleDB`, a checkout by user 7 of cart 1 that fails
right after the `Order` INSERT (`k = 1` completed write) leaves a committed
`Order` with zero `OrderItem` rows while the cart and its two items survive —
nothing is rolled back, the very states the claim says can never exist. -/
theorem checkout_not_atomic_leaves_order_without_items :
    (createOrderAfterWrites sampleDB 7 1 1).orders = [⟨1, 1, PaymentStatus.pending, 99⟩] ∧
    (createOrderAfterWrites sampleDB 7 1 1).orderItems = [] ∧
    (createOrderAfterWrites sampleDB 7 1 1).carts = sampleDB.carts ∧
    (createOrderAfterWrites sampleDB 7 1 1).cartItems = sampleDB.cartItems ∧
    cartExists (createOrderAfterWrites sampleDB 7 1 1) 1 = true := by
  decide

/-! ### C4 -/

/-- C4: checkout validates before mutating — on a cart id with no `Cart` row,
or on an existing cart with zero `CartItem` rows, `createOrder` answers a
`ValidationError` (never a storage-layer error) and returns the state exactly
as it was: no `Order` row is created and nothing else changes. -/
theorem checkout_validation_failure_mutates_nothing (db : DB) (uid cid : Nat)
    (h : cartExists db cid = false ∨
      (cartExists db cid = true ∧ (cartItemsOf db cid).length = 0)) :
    ∃ msg, createOrder db uid cid = (db, Except.error (ApiError.validationError msg)) := by
  rcases h with h | ⟨h1, h2⟩
  · exact ⟨"No cart with the given id was found.", by simp [createOrder, h]⟩
  · exact ⟨"The cart is empty.", by simp [createOrder, h1, h2]⟩

/-- Witness for C4: cart id 99 references no cart of `sampleDB`. -/
theorem checkout_validation_failure_example :
    (cartExists sampleDB 99 = false ∨
      (cartExists sampleDB 99 = true ∧ (cartItemsOf sampleDB 99).length = 0)) ∧
    (∃ msg, createOrder sampleDB 7 99 = (sampleDB, Except.error (ApiError.validationError msg))) :=
  ⟨Or.inl (by decide),
   checkout_validation_failure_mutates_nothing sampleDB 7 99 (Or.inl (by decide))⟩

/-! ### C6 -/

/-- C6: order prices are frozen at checkout — after a successful `createOrder`,
a catalog price change (`updateProductPrice`) alters neither the `OrderItem`
rows (whose `unit_price` is an own copied column) nor the `Order` rows. -/
theorem order_item_price_frozen_after_checkout (db db1 : DB) (uid cid oid pk : Nat)
    (newPrice : Int) (_h : createOrder db uid cid = (db1, Except.ok oid)) :
    (updateProductPrice db1 pk newPrice).orderItems = db1.orderItems ∧
    (updateProductPrice db1 pk newPrice).orders = db1.orders :=
  ⟨rfl, rfl⟩

/-- Witness for C6: checkout of `sampleDB`, then product 1's price changes from
1000 to 9999 cents; the stored order items keep their copied prices. -/
theorem order_item_price_frozen_example :
    (updateProductPrice checkedOutDB 1 9999).orderItems = checkedOutDB.orderItems ∧
    (updateProductPrice checkedOutDB 1 9999).orders = checkedOutDB.orders :=
  order_item_price_frozen_after_checkout sampleDB checkedOutDB 7 1 1 1 9999 (by decide)

/-! ### C8 -/

/-- C8: refuted as stated.  On `noCustomerDB` (valid, non-empty cart 1; no
`Customer` row for the authenticated user 7) checkout fails with the ORM's
`Customer.DoesNotExist`, which no caller catches — surfaced as a 500 server
error — whereas a `NotFound` failure would carry 404. -/
theorem checkout_missing_customer_is_500_not_404 :
    (createOrder noCustomerDB 7 1).2 = Except.error (ApiError.doesNotExist "Customer") ∧
    resultStatus (createOrder noCustomerDB 7 1) = 500 ∧
    ApiError.statusCode (ApiError.notFound "Customer") = 404 ∧
    (createOrder noCustomerDB 7 1).1 = noCustomerDB := by
  decide

/-- C8 (amended): checkout step 1 resolves the `Customer` row by the
authenticated identity's user id, and when no such row exists, checkout fails
with an unhandled `Customer.DoesNotExist` — surfaced as a 500 server error,
not `NotFound` — leaving the state unchanged. -/
theorem checkout_missing_customer_unhandled (db : DB) (uid cid : Nat)
    (hcart : cartExists db cid = true)
    (hne : (cartItemsOf db cid).length ≠ 0)
    (hnone : db.customers.find? (fun c => c.user_id == uid) = none) :
    createOrder db uid cid = (db, Except.error (ApiError.doesNotExist "Customer")) ∧
    resultStatus (createOrder db uid cid) = 500 := by
  have hne' : ((cartItemsOf db cid).length == 0) = false := beq_eq_false_iff_ne.mpr hne
  constructor
  · simp [createOrder, hcart, hne', hnone]
  · simp [resultStatus, createOrder, hcart, hne', hnone, ApiError.statusCode]

/-- Witness for C8's amended theorem: user 8 has no customer row in
`noCustomerDB` while cart 1 exists and is non-empty. -/
theorem checkout_missing_customer_example :
    createOrder noCustomerDB 8 1 = (noCustomerDB, Except.error (ApiError.doesNotExist "Customer")) ∧
    resultStatus (createOrder noCustomerDB 8 1) = 500 :=
  checkout_missing_customer_unhandled noCustomerDB 8 1 (by decide) (by decide) (by decide)

/-! ### C5 -/

lemma optionSum_lines (db : DB) :
    ∀ l : List CartItem,
      (∀ x ∈ l, (productLookup db x.product_id).isSome = true) →
      optionSum (l.map (fun x => cartItemTotalPrice db x)) =
        some (((l.filterMap (fun x =>
            (productLookup db x.product_id).map (fun p => (x, p)))).map
          (fun x => (x.1.quantity : Int) * x.2.unit_price)).sum) := by
  intro l
  induction l with
  | nil => intro _; simp [optionSum]
  | cons a t ih =>
    intro h
    obtain ⟨p, hp⟩ := Option.isSome_iff_exists.mp (h a (List.mem_cons_self a t))
    have ht := ih (fun x hx => h x (List.mem_cons_of_mem a hx))
    simp only [cartItemTotalPrice] at ht
    simp [cartItemTotalPrice, hp, optionSum, List.filterMap_cons, ht]

/-- C5: the cart pricing view is a pure read — the `GET /carts/{id}` read
returns the state unchanged together with the sum, over the cart's items, of
quantity times the product's *current* catalog price, and a single line's
total is its quantity times that product's current price. -/
theorem cart_pricing_pure_current_price_sum (db : DB) (cid : Nat)
    (it : CartItem) (p : Product)
    (hfk : ∀ x ∈ cartItemsOf db cid, (productLookup db x.product_id).isSome = true)
    (hit : productLookup db it.product_id = some p) :
    cartTotalRead db cid =
      (db, some (((cartItemsWithProduct db cid).map
        (fun x => (x.1.quantity : Int) * x.2.unit_price)).sum)) ∧
    cartItemTotalPrice db it = some ((it.quantity : Int) * p.unit_price) := by
  constructor
  · have h := optionSum_lines db (cartItemsOf db cid) hfk
    simp [cartTotalRead, cartTotalPrice, cartItemsWithProduct, h]
  · simp [cartItemTotalPrice, hit]

/-- Witness for C5 on `sampleDB`'s cart 1 (items 2 × 10.00 and 1 × 5.00): the
joined sum works out to 2500 cents and the first line to 2000 cents. -/
theorem cart_pricing_example :
    (cartTotalRead sampleDB 1 =
      (sampleDB, some (((cartItemsWithProduct sampleDB 1).map
        (fun x => (x.1.quantity : Int) * x.2.unit_price)).sum)) ∧
     cartItemTotalPrice sampleDB ⟨10, 1, 1, 2⟩ = some (((2 : Nat) : Int) * (1000 : Int))) ∧
    cartTotalRead sampleDB 1 = (sampleDB, some 2500) :=
  ⟨cart_pricing_pure_current_price_sum sampleDB 1 ⟨10, 1, 1, 2⟩ ⟨1, "P1", 1000, 5, 1⟩
      (by decide) (by decide),
   by decide⟩

/-! ### C7 -/

/-- C7: guarded product deletion — for an existing product, `destroy` answers
405 with the descriptive message and leaves the product table untouched (the
row still exists) when any `OrderItem` references the product, and otherwise
deletes exactly that product row (204). -/
theorem product_destroy_guarded (db : DB) (pk : Nat)
    (hex : productExists db pk = true) :
    if 0 < (db.orderItems.filter (fun oi => oi.product_id == pk)).length then
      productDestroy db pk =
        (db, Except.error (ApiError.methodNotAllowed
          "Product cannot be deleted because it is associated with order items.")) ∧
      productExists (productDestroy db pk).1 pk = true
    else
      (productDestroy db pk).2 = Except.ok 0 ∧
      productExists (productDestroy db pk).1 pk = false := by
  by_cases h : 0 < (db.orderItems.filter (fun oi => oi.product_id == pk)).length
  · rw [if_pos h]
    constructor
    · simp [productDestroy, h]
    · simp [productDestroy, h, hex]
  · rw [if_neg h]
    constructor
    · simp [productDestroy, h, hex]
    · have hres : (productDestroy db pk).1 =
          { db with
              products := db.products.filter (fun p => !(p.id == pk)),
              cartItems := db.cartItems.filter (fun x => !(x.product_id == pk)) } := by
        simp [productDestroy, h, hex]
      rw [hres]
      exact any_filter_ne (fun p => p.id == pk) db.products

/-- Witness for C7: in `checkedOutDB` product 1 is referenced by an order item,
so its deletion is refused with 405 and the row survives. -/
theorem product_destroy_guarded_example :
    if 0 < (checkedOutDB.orderItems.filter (fun oi => oi.product_id == 1)).length then
      productDestroy checkedOutDB 1 =
        (checkedOutDB, Except.error (ApiError.methodNotAllowed
          "Product cannot be deleted because it is associated with order items.")) ∧
      productExists (productDestroy checkedOutDB 1).1 1 = true
    else
      (productDestroy checkedOutDB 1).2 = Except.ok 0 ∧
      productExists (productDestroy checkedOutDB 1).1 1 = false :=
  product_destroy_guarded checkedOutDB 1 (by decide)

/-! ### C9 -/

lemma find?_id_map_update (oid : Nat) (f : Order → Order)
    (hf : ∀ o, (f o).id = o.id) :
    ∀ l : List Order,
      (l.map f).find? (fun x => x.id == oid) = (l.find? (fun x => x.id == oid)).map f := by
  intro l
  induction l with
  | nil => rfl
  | cons a t ih =>
    simp only [List.map_cons, List.find?_cons, hf a]
    by_cases h : (a.id == oid) = true
    · simp [h]
    · simp [h, ih]

/-- C9: order update is payment-status-only — applying `UpdateOrderSerializer`
to an existing order can change that order's `payment_status` at most (to the
patched value when one is supplied), while its `customer`, `placed_at`, every
`OrderItem` row and every other table are left untouched, whatever else the
patch body tries to set. -/
theorem order_update_only_payment_status (db : DB) (oid : Nat) (patch : OrderPatch)
    (o : Order) (ho : db.orders.find? (fun x => x.id == oid) = some o) :
    ∃ o2 : Order,
      (updateOrder db oid patch).orders.find? (fun x => x.id == oid) = some o2 ∧
      o2.customer_id = o.customer_id ∧
      o2.placed_at = o.placed_at ∧
      o2.payment_status = patch.payment_status.getD o.payment_status ∧
      (updateOrder db oid patch).orderItems = db.orderItems ∧
      (updateOrder db oid patch).customers = db.customers := by
  have hkey := find?_id_map_update oid
    (fun x =>
      if x.id == oid then
        match patch.payment_status with
        | some s => { x with payment_status := s }
        | none => x
      else x)
    (by
      intro x
      by_cases h : (x.id == oid) = true
      · cases hps : patch.payment_status <;> simp [h, hps]
      · simp [h])
    db.orders
  have hoid : (o.id == oid) = true := by
    have h := List.find?_some ho
    exact h
  have horders : (updateOrder db oid patch).orders =
      db.orders.map (fun x =>
        if x.id == oid then
          match patch.payment_status with
          | some s => { x with payment_status := s }
          | none => x
        else x) := rfl
  refine ⟨(match patch.payment_status with
          | some s => { o with payment_status := s }
          | none => o), ?_, ?_, ?_, ?_, rfl, rfl⟩
  · rw [horders, hkey, ho, Option.map_some']
    simp [hoid]
  · cases patch.payment_status <;> rfl
  · cases patch.payment_status <;> rfl
  · cases patch.payment_status <;> rfl

/-- Witness for C9: on `checkedOutDB`, a patch that sets payment status to
complete and *also* tries customer 42 and placed_at 123 changes only the
payment status of order 1. -/
theorem order_update_example :
    ∃ o2 : Order,
      (updateOrder checkedOutDB 1
        ⟨some PaymentStatus.complete, some 42, some 123⟩).orders.find?
          (fun x => x.id == 1) = some o2 ∧
      o2.customer_id = 1 ∧
      o2.placed_at = 99 ∧
      o2.payment_status = PaymentStatus.complete ∧
      (updateOrder checkedOutDB 1
        ⟨some PaymentStatus.complete, some 42, some 123⟩).orderItems =
        checkedOutDB.orderItems ∧
      (updateOrder checkedOutDB 1
        ⟨some PaymentStatus.complete, some 42, some 123⟩).customers =
        checkedOutDB.customers :=
  order_update_only_payment_status checkedOutDB 1
    ⟨some PaymentStatus.complete, some 42, some 123⟩
    ⟨1, 1, PaymentStatus.pending, 99⟩ (by decide)

/-! ### C10 -/

/-- C10: the upsert's increment path computes the new quantity by exact,
unbounded natural-number addition — for an existing (cart, product) row the
call rewrites exactly that row to `quantity + d` and succeeds, with no
upper-bound, wrap-around or saturation check before the write. -/
theorem cart_increment_exact_sum (db : DB) (c p d : Nat) (item : CartItem)
    (hp : productExists db p = true)
    (_hd : 0 < d)
    (hfind : db.cartItems.find?
      (fun it => it.cart_id == c && it.product_id == p) = some item) :
    ∃ db1 : DB,
      addCartItem db c p d = (db1, Except.ok item.id) ∧
      db1.cartItems = db.cartItems.map
        (fun it =>
          if it.id == item.id then { it with quantity := it.quantity + d } else it) ∧
      { item with quantity := item.quantity + d } ∈ db1.cartItems := by
  refine ⟨{ db with
      cartItems := db.cartItems.map
        (fun it =>
          if it.id == item.id then { it with quantity := it.quantity + d } else it) },
    ?_, rfl, ?_⟩
  · simp [addCartItem, hp, hfind]
  · have hmem := List.mem_of_find?_eq_some hfind
    have h2 := List.mem_map_of_mem
      (fun it =>
        if it.id == item.id then { it with quantity := it.quantity + d } else it) hmem
    simpa using h2

/-- Witness for C10: the stored quantity 32767 (the 16-bit column's maximum)
plus 1 is submitted as 32768, beyond `positiveSmallIntegerFieldMax`, with no
rejection. -/
theorem cart_increment_overflow_example :
    (∃ db1 : DB,
      addCartItem maxQtyDB 1 1 1 = (db1, Except.ok 10) ∧
      db1.cartItems = maxQtyDB.cartItems.map
        (fun it => if it.id == 10 then { it with quantity := it.quantity + 1 } else it) ∧
      ({ id := 10, cart_id := 1, product_id := 1, quantity := 32767 + 1 } : CartItem) ∈
        db1.cartItems) ∧
    positiveSmallIntegerFieldMax < 32767 + 1 :=
  ⟨cart_increment_exact_sum maxQtyDB 1 1 1 ⟨10, 1, 1, 32767⟩
      (by decide) (by decide) (by decide),
   by decide⟩

/-! ### C2 -/

lemma forall2_new_items (db : DB) (oid : Nat) :
    ∀ l : List CartItem,
      (∀ x ∈ l, (productLookup db x.product_id).isSome = true) →
      List.Forall₂
        (fun (x : CartItem) (oi : OrderItem) =>
          ∃ pr : Product, productLookup db x.product_id = some pr ∧
            oi = ⟨oid, x.product_id, x.quantity, pr.unit_price⟩)
        l
        ((l.filterMap (fun x =>
            (productLookup db x.product_id).map (fun p => (x, p)))).map
          (fun x => OrderItem.mk oid x.2.id x.1.quantity x.2.unit_price)) := by
  intro l
  induction l with
  | nil => intro _; exact List.Forall₂.nil
  | cons a t ih =>
    intro h
    obtain ⟨p, hp⟩ := Option.isSome_iff_exists.mp (h a (List.mem_cons_self a t))
    have hpid : p.id = a.product_id := by
      have h2 := List.find?_some hp
      simpa using h2
    have ht := ih (fun x hx => h x (List.mem_cons_of_mem a hx))
    simp only [List.filterMap_cons, hp, Option.map_some', List.map_cons]
    exact List.Forall₂.cons ⟨p, hp, by rw [hpid]⟩ ht

/-- C2: successful checkout — with an existing non-empty cart and a resolvable
customer, `createOrder` creates exactly one new `Order` row (owned by that
customer, payment status pending, stamped now), appends one `OrderItem` per
cart line whose product, quantity and copied current `unit_price` match that
line's snapshot, and deletes the cart (with its items); afterwards the cart id
resolves to nothing. -/
theorem checkout_success_creates_order_and_items (db : DB) (uid cid : Nat) (cust : Customer)
    (hcart : cartExists db cid = true)
    (hne : (cartItemsOf db cid).length ≠ 0)
    (hcust : db.customers.find? (fun c => c.user_id == uid) = some cust)
    (hfk : ∀ x ∈ cartItemsOf db cid, (productLookup db x.product_id).isSome = true) :
    ∃ newItems : List OrderItem,
      createOrder db uid cid =
        ({ db with
            orders := db.orders ++ [⟨db.nextOrderId, cust.id, PaymentStatus.pending, db.now⟩],
            orderItems := db.orderItems ++ newItems,
            carts := db.carts.filter (fun cart => !(cart.uuid == cid)),
            cartItems := db.cartItems.filter (fun x => !(x.cart_id == cid)),
            nextOrderId := db.nextOrderId + 1 },
          Except.ok db.nextOrderId) ∧
      List.Forall₂
        (fun (x : CartItem) (oi : OrderItem) =>
          ∃ pr : Product, productLookup db x.product_id = some pr ∧
            oi = ⟨db.nextOrderId, x.product_id, x.quantity, pr.unit_price⟩)
        (cartItemsOf db cid) newItems ∧
      newItems.length = (cartItemsOf db cid).length ∧
      cartExists (createOrder db uid cid).1 cid = false := by
  have hne' : ((cartItemsOf db cid).length == 0) = false := beq_eq_false_iff_ne.mpr hne
  have hfa := forall2_new_items db db.nextOrderId (cartItemsOf db cid) hfk
  refine ⟨(cartItemsWithProduct db cid).map
      (fun x => OrderItem.mk db.nextOrderId x.2.id x.1.quantity x.2.unit_price),
    ?_, ?_, ?_, ?_⟩
  · simp [createOrder, hcart, hne', hcust]
  · exact hfa
  · exact hfa.length_eq.symm
  · have hres : (createOrder db uid cid).1 =
        { db with
            orders := db.orders ++ [⟨db.nextOrderId, cust.id, PaymentStatus.pending, db.now⟩],
            orderItems := db.orderItems ++ (cartItemsWithProduct db cid).map
              (fun x => OrderItem.mk db.nextOrderId x.2.id x.1.quantity x.2.unit_price),
            carts := db.carts.filter (fun cart => !(cart.uuid == cid)),
            cartItems := db.cartItems.filter (fun x => !(x.cart_id == cid)),
            nextOrderId := db.nextOrderId + 1 } := by
      simp [createOrder, hcart, hne', hcust]
    rw [hres]
    exact any_filter_ne (fun cart => cart.uuid == cid) db.carts

/-- Witness for C2: user 7 checks out cart 1 of `sampleDB`. -/
theorem checkout_success_example :
    ∃ newItems : List OrderItem,
      createOrder sampleDB 7 1 =
        ({ sampleDB with
            orders := sampleDB.orders ++ [⟨1, 1, PaymentStatus.pending, 99⟩],
            orderItems := sampleDB.orderItems ++ newItems,
            carts := sampleDB.carts.filter (fun cart => !(cart.uuid == 1)),
            cartItems := sampleDB.cartItems.filter (fun x => !(x.cart_id == 1)),
            nextOrderId := 2 },
          Except.ok 1) ∧
      List.Forall₂
        (fun (x : CartItem) (oi : OrderItem) =>
          ∃ pr : Product, productLookup sampleDB x.product_id = some pr ∧
            oi = ⟨1, x.product_id, x.quantity, pr.unit_price⟩)
        (cartItemsOf sampleDB 1) newItems ∧
      newItems.length = (cartItemsOf sampleDB 1).length ∧
      cartExists (createOrder sampleDB 7 1).1 1 = false :=
  checkout_success_creates_order_and_items sampleDB 7 1 ⟨1, 7⟩
    (by decide) (by decide) (by decide) (by decide)

/-! ### C3 -/

lemma addCartItem_insert (db : DB) (c p q : Nat)
    (hp : productExists db p = true)
    (hfind : db.cartItems.find?
      (fun it => it.cart_id == c && it.product_id == p) = none) :
    addCartItem db c p q =
      ({ db with
          cartItems := db.cartItems ++ [⟨db.nextCartItemId, c, p, q⟩],
          nextCartItemId := db.nextCartItemId + 1 },
        Except.ok db.nextCartItemId) := by
  simp [addCartItem, hp, hfind]

lemma addCartItem_update (db : DB) (c p q : Nat) (item : CartItem)
    (hp : productExists db p = true)
    (hfind : db.cartItems.find?
      (fun it => it.cart_id == c && it.product_id == p) = some item) :
    addCartItem db c p q =
      ({ db with
          cartItems := db.cartItems.map
            (fun it =>
              if it.id == item.id then { it with quantity := it.quantity + q } else it) },
        Except.ok item.id) := by
  simp [addCartItem, hp, hfind]

/-- C3: the cart-item upsert accumulates — starting from a state with no row
for (cart `c`, product `p`), adding quantity `q1` and then `q2` leaves exactly
one row for that pair, holding quantity `q1 + q2`; every other row is exactly
as before, the first call inserts exactly one row and the second call inserts
none (it mutates the existing row). -/
theorem cart_upsert_two_adds_accumulate (db : DB) (c p q1 q2 : Nat)
    (_hq1 : 0 < q1) (_hq2 : 0 < q2)
    (hp : productExists db p = true)
    (h0 : cartItemRowsFor db c p = [])
    (hfresh : CartItemIdsFresh db) :
    ∃ db1 db2 : DB,
      addCartItem db c p q1 = (db1, Except.ok db.nextCartItemId) ∧
      addCartItem db1 c p q2 = (db2, Except.ok db.nextCartItemId) ∧
      cartItemRowsFor db2 c p = [⟨db.nextCartItemId, c, p, q1 + q2⟩] ∧
      db2.cartItems.filter (fun it => !(it.cart_id == c && it.product_id == p)) =
        db.cartItems ∧
      db1.cartItems.length = db.cartItems.length + 1 ∧
      db2.cartItems.length = db1.cartItems.length := by
  have h0' : db.cartItems.filter (fun it => it.cart_id == c && it.product_id == p) = [] := h0
  have hfind0 : db.cartItems.find? (fun it => it.cart_id == c && it.product_id == p) = none :=
    find?_eq_none_of_filter_eq_nil _ _ h0'
  have hfind1 : (db.cartItems ++ [(⟨db.nextCartItemId, c, p, q1⟩ : CartItem)]).find?
      (fun it => it.cart_id == c && it.product_id == p) =
        some ⟨db.nextCartItemId, c, p, q1⟩ := by
    rw [List.find?_append, hfind0]
    simp
  have hbump : ∀ a ∈ db.cartItems,
      (if a.id == db.nextCartItemId then { a with quantity := a.quantity + q2 } else a) = a := by
    intro a ha
    have hne : (a.id == db.nextCartItemId) = false := by
      simpa using Nat.ne_of_lt (hfresh a ha)
    simp [hne]
  have hmap : db.cartItems.map
      (fun it =>
        if it.id == db.nextCartItemId then { it with quantity := it.quantity + q2 } else it) =
      db.cartItems := by
    have h2 := List.map_congr_left hbump
    simpa using h2
  have hcartItems2 : (db.cartItems ++ [(⟨db.nextCartItemId, c, p, q1⟩ : CartItem)]).map
      (fun it =>
        if it.id == db.nextCartItemId then { it with quantity := it.quantity + q2 } else it) =
      db.cartItems ++ [⟨db.nextCartItemId, c, p, q1 + q2⟩] := by
    rw [List.map_append, hmap]
    simp
  have hkeep : db.cartItems.filter (fun it => !(it.cart_id == c && it.product_id == p)) =
      db.cartItems := by
    rw [List.filter_eq_self]
    intro a ha
    have h3 := List.filter_eq_nil_iff.mp h0' a ha
    have h4 : (a.cart_id == c && a.product_id == p) = false := Bool.eq_false_iff.mpr h3
    simp [h4]
  have hbump' : ∀ a ∈ db.cartItems,
      (if a.id = db.nextCartItemId then
        ({ id := a.id, cart_id := a.cart_id, product_id := a.product_id,
           quantity := a.quantity + q2 } : CartItem)
      else a) = a := by
    intro a ha
    rw [if_neg (Nat.ne_of_lt (hfresh a ha))]
  have hmap' : db.cartItems.map
      (fun it =>
        if it.id = db.nextCartItemId then
          ({ id := it.id, cart_id := it.cart_id, product_id := it.product_id,
             quantity := it.quantity + q2 } : CartItem)
        else it) = db.cartItems := by
    rw [List.map_congr_left hbump', List.map_id']
  have e1 := addCartItem_insert db c p q1 hp hfind0
  have e2 := addCartItem_update
    { db with
        cartItems := db.cartItems ++ [⟨db.nextCartItemId, c, p, q1⟩],
        nextCartItemId := db.nextCartItemId + 1 }
    c p q2 ⟨db.nextCartItemId, c, p, q1⟩ hp hfind1
  have e2' : addCartItem
      { db with
          cartItems := db.cartItems ++ [⟨db.nextCartItemId, c, p, q1⟩],
          nextCartItemId := db.nextCartItemId + 1 } c p q2 =
      ({ db with
          cartItems := db.cartItems ++ [⟨db.nextCartItemId, c, p, q1 + q2⟩],
          nextCartItemId := db.nextCartItemId + 1 },
        Except.ok db.nextCartItemId) := by
    rw [e2]
    simp [hcartItems2]
    exact hmap'
  refine ⟨_, _, e1, e2', ?_, ?_, ?_, ?_⟩
  · show (db.cartItems ++ [(⟨db.nextCartItemId, c, p, q1 + q2⟩ : CartItem)]).filter
        (fun it => it.cart_id == c && it.product_id == p) = _
    rw [List.filter_append, h0']
    simp
  · show (db.cartItems ++ [(⟨db.nextCartItemId, c, p, q1 + q2⟩ : CartItem)]).filter
        (fun it => !(it.cart_id == c && it.product_id == p)) = db.cartItems
    rw [List.filter_append, hkeep]
    simp
  · show (db.cartItems ++ [(⟨db.nextCartItemId, c, p, q1⟩ : CartItem)]).length =
        db.cartItems.length + 1
    simp
  · show (db.cartItems ++ [(⟨db.nextCartItemId, c, p, q1 + q2⟩ : CartItem)]).length =
        (db.cartItems ++ [(⟨db.nextCartItemId, c, p, q1⟩ : CartItem)]).length
    simp

/-- Witness for C3: on `maxQtyDB` (which has no row for cart 1 × product 2),
adding 3 then 4 of product 2 to cart 1 yields one row with quantity 7. -/
theorem cart_upsert_two_adds_example :
    ∃ db1 db2 : DB,
      addCartItem maxQtyDB 1 2 3 = (db1, Except.ok 12) ∧
      addCartItem db1 1 2 4 = (db2, Except.ok 12) ∧
      cartItemRowsFor db2 1 2 = [⟨12, 1, 2, 3 + 4⟩] ∧
      db2.cartItems.filter (fun it => !(it.cart_id == 1 && it.product_id == 2)) =
        maxQtyDB.cartItems ∧
      db1.cartItems.length = maxQtyDB.cartItems.length + 1 ∧
      db2.cartItems.length = db1.cartItems.length :=
  cart_upsert_two_adds_accumulate maxQtyDB 1 2 3 4
    (by decide) (by decide) (by decide) (by decide) (by decide)

end StoreApp
